import Mathlib

/-!
Verification of the HookExe window-capture subsystem
(`src/modules/core/screenshot_engine.py`, `src/modules/core/process_manager.py`).

The Python code is shallowly embedded: every OS / library call (win32gui,
win32process, PIL ImageGrab, GDI device contexts) is an effect whose outcome is
supplied by an explicit environment record, and every engine method becomes a
total Lean function of that environment.  Exceptions raised by an OS call are
modelled by Boolean "raises" fields (the Python wraps each strategy body in
try/except); a method returning `Optional[Image]` becomes `Option Bitmap`.
Activation calls and strategy invocations are additionally recorded in an
event trace so that claims about which calls happen can be stated.
-/

namespace HookExe

/-- A captured bitmap: `width`/`height` in pixels and the flat list of sample
values (0–255 scale) that `np.array(image)` would contain, flattened across
rows and channels.  `np.mean` over that array is `pixels.sum / pixels.length`. -/
structure Bitmap where
  width : Nat
  height : Nat
  pixels : List Nat
deriving Repr, DecidableEq

/-- A window rectangle `(left, top, right, bottom)` in screen coordinates, as
returned by `win32gui.GetWindowRect` / `ProcessManager.get_window_rect`. -/
structure Rect where
  left : Int
  top : Int
  right : Int
  bottom : Int
deriving Repr, DecidableEq

/-- `ScreenshotEngine.is_black_image(image, threshold=10)`:
`avg_brightness = np.mean(np.array(image))`; returns `avg_brightness < threshold`.
`np.mean` of an empty array is NaN and `NaN < threshold` is `False` in Python,
so an empty pixel buffer yields `false`.  The surrounding try/except also
returns `false` on error, which the empty case subsumes.  The mean is the
exact rational `mkRat pixels.sum pixels.length = pixels.sum / pixels.length`. -/
def is_black_image (img : Bitmap) (threshold : ℚ) : Bool :=
  if img.pixels.length = 0 then false
  else decide (mkRat img.pixels.sum img.pixels.length < threshold)

/-- Python truthiness test `if not screenshot or self.is_black_image(screenshot)`
on an `Optional[Image]`: true when the capture produced nothing or the produced
bitmap is black at the default threshold 10. -/
def blackOrNone (s : Option Bitmap) : Bool :=
  match s with
  | none => true
  | some b => is_black_image b 10

/-- Observable calls made by the engine, recorded in order: the three capture
primitives and the two activation tiers of `ProcessManager`. -/
inductive Event
  | bgCap
  | stdCap
  | handleCap
  | basicAct
  | forcedAct
deriving Repr, DecidableEq

/-- Environment for one `PIL.ImageGrab.grab(bbox=...)` call: the screen content
at that instant as a pixel function, plus whether the call raises.  Per PIL,
a successful grab of bbox `(l, t, r, b)` returns an image of size
`(r - l) × (b - t)` holding the screen pixels of that region. -/
structure ScreenEnv where
  grabRaises : Bool
  pixelAt : Int → Int → Nat

/-- The pixel buffer PIL returns for a grab of `rect`: row-major samples of the
screen region. -/
def grabPixels (e : ScreenEnv) (rect : Rect) : List Nat :=
  (List.range (rect.bottom - rect.top).toNat).flatMap fun y =>
    (List.range (rect.right - rect.left).toNat).map fun x =>
      e.pixelAt (rect.left + x) (rect.top + y)

/-- `ScreenshotEngine.capture_window_standard(rect)`: unpacks the rect, calls
`ImageGrab.grab(bbox=(left, top, right, bottom))` and returns the image; any
exception is caught and `None` is returned. -/
def capture_window_standard (e : ScreenEnv) (rect : Rect) : Option Bitmap :=
  if e.grabRaises then none
  else some ⟨(rect.right - rect.left).toNat, (rect.bottom - rect.top).toNat,
             grabPixels e rect⟩

/-- Environment for one `ScreenshotEngine.capture_window_by_handle(hwnd)` call:
`raises` — some GDI/DC call in the body raises (caught, `None` returned);
`rect` — what `win32gui.GetWindowRect(hwnd)` returns inside the method;
`bitBltOk` — the truthiness of the `BitBlt` result;
`bits` — the pixel content `GetBitmapBits` yields for the copied bitmap. -/
structure HandleEnv where
  raises : Bool
  rect : Rect
  bitBltOk : Bool
  bits : List Nat

/-- `ScreenshotEngine.capture_window_by_handle(hwnd)`: computes
`width = right - left`, `height = bottom - top` from `GetWindowRect`, creates a
compatible bitmap of that size, `BitBlt`s into it; on `BitBlt` success builds a
PIL image of size `(bmWidth, bmHeight) = (width, height)` from the bitmap bits,
else returns `None`; any exception is caught and `None` is returned. -/
def capture_window_by_handle (e : HandleEnv) : Option Bitmap :=
  if e.raises then none
  else if e.bitBltOk then
    some ⟨(e.rect.right - e.rect.left).toNat, (e.rect.bottom - e.rect.top).toNat,
          e.bits⟩
  else none

/-- Environment for `ScreenshotEngine.capture_window_background(hwnd)`:
`raises` — `IsIconic`/`ShowWindow` raise before the handle capture;
`handleEnv` — the environment of the inner `capture_window_by_handle` call
(after the optional no-activate restore, which only affects that content). -/
structure BgEnv where
  raises : Bool
  handleEnv : HandleEnv

/-- `ScreenshotEngine.capture_window_background(hwnd)`: optionally restores a
minimized window without activation, then calls `capture_window_by_handle`;
returns the screenshot only if it is non-`None` and not black
(`if screenshot and not self.is_black_image(screenshot)`), else `None`. -/
def capture_window_background (e : BgEnv) : Option Bitmap :=
  if e.raises then none
  else
    match capture_window_by_handle e.handleEnv with
    | none => none
    | some s => if is_black_image s 10 then none else some s

/-- Environment for `ScreenshotEngine.capture_window_with_fallback`:
`bg` — environment of the tier-1 `capture_window_background` call;
`rect` — what `process_manager.get_window_rect(hwnd)` returns in tier 2;
`activateOk` — return value of `process_manager.activate_window(hwnd)`;
`screen1` — screen state for the standard capture after basic activation;
`forceOk` — return value of `process_manager.force_activate_window(hwnd)`;
`screen2` — screen state for the re-capture after forced activation. -/
structure SmartEnv where
  bg : BgEnv
  rect : Option Rect
  activateOk : Bool
  screen1 : ScreenEnv
  forceOk : Bool
  screen2 : ScreenEnv

/-- `ScreenshotEngine.capture_window_with_fallback(hwnd, background_first, process_manager)`,
paired with the trace of capture/activation calls it makes.  Mirrors the source:
if `background_first`, try `capture_window_background` and return its result if
truthy; otherwise, if a process manager was supplied, resolve the rect, attempt
basic activation, and on success run a standard capture; if that result is
falsy or black, attempt forced activation and on success run one final standard
capture; whatever `screenshot` holds at the end is returned. -/
def capture_window_with_fallback (e : SmartEnv) (background_first hasPM : Bool) :
    Option Bitmap × List Event :=
  let bgStep : Option Bitmap × List Event :=
    if background_first then (capture_window_background e.bg, [Event.bgCap])
    else (none, [])
  match bgStep with
  | (some s, tr) => (some s, tr)
  | (none, tr) =>
    if hasPM then
      match e.rect with
      | none => (none, tr)
      | some r =>
        let tr1 := tr ++ [Event.basicAct]
        if e.activateOk then
          let s1 := capture_window_standard e.screen1 r
          let tr2 := tr1 ++ [Event.stdCap]
          if blackOrNone s1 then
            let tr3 := tr2 ++ [Event.forcedAct]
            if e.forceOk then
              (capture_window_standard e.screen2 r, tr3 ++ [Event.stdCap])
            else (s1, tr3)
          else (s1, tr2)
        else (none, tr1)
    else (none, tr)

/-- `ScreenshotEngine.capture_window_auto(hwnd, rect, process_manager)`:
delegates to `capture_window_with_fallback(hwnd, background_first=True,
process_manager=process_manager)`; the `rect` argument is ignored. -/
def capture_window_auto (e : SmartEnv) (hasPM : Bool) : Option Bitmap × List Event :=
  capture_window_with_fallback e true hasPM

/-- Environment for `ScreenshotEngine.capture_window(hwnd, method, process_manager)`:
`rect0` — the rect the method resolves up front (via the process manager or
`win32gui.GetWindowRect`; `none` covers both the exception and falsy cases);
`screen0` / `handle0` / `bg0` — environments for a direct `standard`, `handle`
or `background` dispatch; `smart` — environment for the `auto`/`smart` chain
(whose calls happen later and may observe a different rect and screen). -/
structure CwEnv where
  rect0 : Option Rect
  screen0 : ScreenEnv
  handle0 : HandleEnv
  bg0 : BgEnv
  smart : SmartEnv

/-- `ScreenshotEngine.capture_window(hwnd, method, process_manager)`: resolves
the window rect (returning `None` if that fails), returns `None` if
`right - left <= 0 or bottom - top <= 0`, then dispatches on the method string;
an unrecognized method logs an error and returns `None`. -/
def capture_window (e : CwEnv) (method : String) (hasPM : Bool) :
    Option Bitmap × List Event :=
  match e.rect0 with
  | none => (none, [])
  | some r =>
    if r.right - r.left ≤ 0 ∨ r.bottom - r.top ≤ 0 then (none, [])
    else if method = "standard" then (capture_window_standard e.screen0 r, [Event.stdCap])
    else if method = "handle" then (capture_window_by_handle e.handle0, [Event.handleCap])
    else if method = "auto" then capture_window_auto e.smart hasPM
    else if method = "background" then (capture_window_background e.bg0, [Event.bgCap])
    else if method = "smart" then capture_window_with_fallback e.smart true hasPM
    else (none, [])

/-- Environment for `ProcessManager.force_activate_window(hwnd)`: the OS calls
in source order, each with a flag telling whether it raises (win32 wrappers
raise on failure; the body's single try/except catches and returns `False`).
`sameThread` — whether `GetCurrentThreadId()` equals the window's thread id
(when equal, no attach/detach happens); `iconic` — `IsIconic(hwnd)` truthy. -/
structure FAEnv where
  sameThread : Bool
  iconic : Bool
  okGetFg : Bool
  okGetTid : Bool
  okAttach : Bool
  okRestore : Bool
  okShow : Bool
  okSetPos : Bool
  okSetFg : Bool
  okDetach : Bool

/-- `ProcessManager.force_activate_window(hwnd)` together with the
attached-thread-input state at the moment the function returns.  Result is
`(return value, still attached?)`.  The source attaches the input queues (when
threads differ), restores/shows/repositions/foregrounds the window, then
detaches; an exception anywhere in the body is caught by the single
try/except, which returns `False` without any detach. -/
def force_activate_window (e : FAEnv) : Bool × Bool :=
  if !e.okGetFg then (false, false)
  else if !e.okGetTid then (false, false)
  else if !e.sameThread && !e.okAttach then (false, false)
  else
    let attached := !e.sameThread
    if e.iconic && !e.okRestore then (false, attached)
    else if !e.okShow then (false, attached)
    else if !e.okSetPos then (false, attached)
    else if !e.okSetFg then (false, attached)
    else if !e.sameThread && !e.okDetach then (false, true)
    else (true, false)

/-- Environment for `ProcessManager.is_window_valid(hwnd)`: `raises` — the
`win32gui.IsWindow` call raises; `winExists` — otherwise, whether `IsWindow`
reports a live window (it reports false for a destroyed window). -/
structure WinEnv where
  raises : Bool
  winExists : Bool

/-- `ProcessManager.is_window_valid(hwnd)`: `bool(win32gui.IsWindow(hwnd))`
inside try/except, returning `False` on any exception. -/
def is_window_valid (e : WinEnv) : Bool :=
  if e.raises then false else e.winExists

/-! Concrete environments used to instantiate the theorems below. -/

/-- A screen that is entirely black (every sample 0). -/
def screenZero : ScreenEnv := ⟨false, fun _ _ => 0⟩

/-- A screen of mid-gray samples (128), mean well above the threshold. -/
def screenGray : ScreenEnv := ⟨false, fun _ _ => 128⟩

/-- A screen of dim samples (value 1): produced bitmaps have mean 1 < 10,
so they are classified black. -/
def screenDim : ScreenEnv := ⟨false, fun _ _ => 1⟩

/-- A screen state in which `ImageGrab.grab` raises. -/
def screenRaise : ScreenEnv := ⟨true, fun _ _ => 0⟩

/-- A 2×2 window rect. -/
def rect2x2 : Rect := ⟨0, 0, 2, 2⟩

/-- A 2×1 window rect. -/
def rect2x1 : Rect := ⟨0, 0, 2, 1⟩

/-- A 3×1 window rect. -/
def rect3x1 : Rect := ⟨0, 0, 3, 1⟩

/-- A degenerate rect of width 0. -/
def rectW0 : Rect := ⟨0, 0, 0, 5⟩

/-- A handle-capture environment whose `BitBlt` returns a falsy result. -/
def handleBltFail : HandleEnv := ⟨true, rect2x2, false, []⟩

/-- A handle-capture environment that succeeds with a 3×1 bitmap of bright
pixels. -/
def handleBright3x1 : HandleEnv := ⟨false, rect3x1, true, [200, 200, 200]⟩

/-- A handle-capture environment that succeeds with a non-black 2×2 bitmap. -/
def handleGray2x2 : HandleEnv := ⟨false, rect2x2, true, [128, 128, 128, 128]⟩

/-- Smart-chain environment in which every tier fails: the background handle
capture raises, the post-basic-activation standard capture sees an all-black
screen, and the post-forced-activation re-capture also sees an all-black
screen. -/
def envAllTiersBlack : SmartEnv :=
  ⟨⟨false, handleBltFail⟩, some rect2x2, true, screenZero, true, screenZero⟩

/-- Smart-chain environment in which the background capture raises, the
standard capture after basic activation raises, forced activation succeeds,
and the final re-capture sees a dim (black-classified) screen. -/
def envFinalDim : SmartEnv :=
  ⟨⟨false, handleBltFail⟩, some rect2x1, true, screenRaise, true, screenDim⟩

/-- Smart-chain environment whose background capture immediately succeeds
with a non-black 2×2 bitmap. -/
def envBgSuccess : SmartEnv :=
  ⟨⟨false, handleGray2x2⟩, some rect2x2, true, screenZero, true, screenZero⟩

/-- Forced-activation environment in which the threads differ and
`SetForegroundWindow` raises after the input queues were attached. -/
def faRaiseAfterAttach : FAEnv :=
  ⟨false, false, true, true, true, true, true, true, false, true⟩

/-- Forced-activation environment in which the threads differ and every OS
call succeeds. -/
def faAllOk : FAEnv :=
  ⟨false, false, true, true, true, true, true, true, true, true⟩

/-- `capture_window` environment with a valid 2×2 rect whose direct standard
grab raises and whose smart chain is `envAllTiersBlack`. -/
def cwStdFails : CwEnv :=
  ⟨some rect2x2, screenRaise, handleBltFail, ⟨false, handleBltFail⟩, envAllTiersBlack⟩

/-- `capture_window` environment with a valid rect whose smart chain succeeds
at the background tier. -/
def cwBgSuccess : CwEnv :=
  ⟨some rect2x2, screenGray, handleGray2x2, ⟨false, handleGray2x2⟩, envBgSuccess⟩

/-- `capture_window` environment whose resolved rect has zero width. -/
def cwEmptyRect : CwEnv :=
  ⟨some rectW0, screenGray, handleGray2x2, ⟨false, handleGray2x2⟩, envBgSuccess⟩

/-- C5: `is_black_image` with the default threshold 10 classifies a nonempty
bitmap as black exactly when its mean sample value (sum over all
pixels/channels divided by their count, 0–255 scale) is below the threshold;
in particular it returns `true` for a uniformly zero bitmap and `false`
whenever the mean is at least the threshold (e.g. uniform mid-gray). -/
theorem c5_is_black_image_mean (b : Bitmap) (hne : b.pixels ≠ []) :
    (is_black_image b 10 = true ↔
      (b.pixels.sum : ℚ) / (b.pixels.length : ℚ) < 10)
    ∧ ((∀ p ∈ b.pixels, p = 0) → is_black_image b 10 = true)
    ∧ (10 ≤ (b.pixels.sum : ℚ) / (b.pixels.length : ℚ) →
        is_black_image b 10 = false) := by
  have hlen : b.pixels.length ≠ 0 := fun h => hne (List.length_eq_zero.mp h)
  have hmean : (mkRat (b.pixels.sum : ℤ) b.pixels.length : ℚ)
      = (b.pixels.sum : ℚ) / (b.pixels.length : ℚ) := by
    rw [Rat.mkRat_eq_div, Int.cast_natCast]
  have hiff : is_black_image b 10 = true ↔
      (b.pixels.sum : ℚ) / (b.pixels.length : ℚ) < 10 := by
    unfold is_black_image
    rw [if_neg hlen, decide_eq_true_iff, hmean]
  refine ⟨hiff, fun hz => ?_, fun hge => ?_⟩
  · have hsum : b.pixels.sum = 0 := List.sum_eq_zero hz
    rw [hiff, hsum]
    norm_num
  · have hne2 : is_black_image b 10 ≠ true := by
      simp only [ne_eq, hiff]
      exact not_lt.mpr hge
    exact Bool.eq_false_iff.mpr hne2

/-- Witness for C5 at a concrete uniformly zero 2×2 bitmap. -/
theorem c5_witness :
    (⟨2, 2, [0, 0, 0, 0]⟩ : Bitmap).pixels ≠ [] ∧
    is_black_image ⟨2, 2, [0, 0, 0, 0]⟩ 10 = true :=
  ⟨by decide,
   (c5_is_black_image_mean ⟨2, 2, [0, 0, 0, 0]⟩ (by decide)).2.1 (by decide)⟩

/-- C9: `is_window_valid` is a total Boolean function of the OS outcome (every
exception from `IsWindow` is caught), and on a destroyed window — one the OS
no longer reports as existing, whether `IsWindow` returns 0 or the call
raises — it returns `false`. -/
theorem c9_is_window_valid_destroyed (e : WinEnv) (h : e.winExists = false) :
    is_window_valid e = false := by
  unfold is_window_valid
  split
  · rfl
  · exact h

/-- Witness for C9: a destroyed window whose `IsWindow` call raises. -/
theorem c9_witness : is_window_valid ⟨true, false⟩ = false :=
  c9_is_window_valid_destroyed ⟨true, false⟩ rfl

/-- C4: whenever the Background tier returns a (necessarily non-black) bitmap,
the Smart chain returns exactly that bitmap and performs no activation call:
neither `activate_window` nor `force_activate_window` appears in the trace. -/
theorem c4_background_success_skips_activation (e : SmartEnv) (b : Bitmap)
    (hbg : capture_window_background e.bg = some b) :
    (capture_window_with_fallback e true true).1 = some b
    ∧ Event.basicAct ∉ (capture_window_with_fallback e true true).2
    ∧ Event.forcedAct ∉ (capture_window_with_fallback e true true).2 := by
  simp [capture_window_with_fallback, hbg]

/-- Witness for C4 at a concrete environment whose background handle capture
yields a uniform mid-gray 2×2 bitmap. -/
theorem c4_witness :
    (capture_window_with_fallback envBgSuccess true true).1 =
      some ⟨2, 2, [128, 128, 128, 128]⟩
    ∧ Event.basicAct ∉ (capture_window_with_fallback envBgSuccess true true).2
    ∧ Event.forcedAct ∉ (capture_window_with_fallback envBgSuccess true true).2 :=
  c4_background_success_skips_activation envBgSuccess
    ⟨2, 2, [128, 128, 128, 128]⟩ (by decide)

/-- C10: for every method string and any resolved rect with non-positive width
or height, `capture_window` returns `None` up front: no capture strategy and
no activation is invoked (empty trace), and nothing is raised (the function is
total). -/
theorem c10_capture_window_rejects_degenerate_rect (e : CwEnv) (method : String)
    (hasPM : Bool) (r : Rect) (hr : e.rect0 = some r)
    (hsz : r.right - r.left ≤ 0 ∨ r.bottom - r.top ≤ 0) :
    capture_window e method hasPM = (none, []) := by
  simp only [capture_window, hr]
  rw [if_pos hsz]

/-- Witness for C10 at a zero-width rect with method `smart`. -/
theorem c10_witness :
    capture_window cwEmptyRect "smart" true = (none, []) :=
  c10_capture_window_rejects_degenerate_rect cwEmptyRect "smart" true rectW0
    rfl (by decide)

/-- C8: for every rect with `right > left` and `bottom > top`, a successful
Standard capture yields a bitmap of exactly `right - left` by `bottom - top`
pixels, and a successful Handle capture yields a bitmap of exactly the
dimensions of the window rect it queried. -/
theorem c8_capture_dimensions (se : ScreenEnv) (he : HandleEnv) (r : Rect)
    (hw : r.left < r.right) (hh : r.top < r.bottom)
    (hw2 : he.rect.left < he.rect.right) (hh2 : he.rect.top < he.rect.bottom) :
    (∀ b, capture_window_standard se r = some b →
      (b.width : Int) = r.right - r.left ∧ (b.height : Int) = r.bottom - r.top)
    ∧ (∀ b, capture_window_by_handle he = some b →
      (b.width : Int) = he.rect.right - he.rect.left
      ∧ (b.height : Int) = he.rect.bottom - he.rect.top) := by
  constructor
  · intro b hb
    unfold capture_window_standard at hb
    split at hb
    · exact absurd hb (by simp)
    · injection hb with hb
      subst hb
      exact ⟨Int.toNat_of_nonneg (by omega), Int.toNat_of_nonneg (by omega)⟩
  · intro b hb
    unfold capture_window_by_handle at hb
    split at hb
    · exact absurd hb (by simp)
    · split at hb
      · injection hb with hb
        subst hb
        exact ⟨Int.toNat_of_nonneg (by omega), Int.toNat_of_nonneg (by omega)⟩
      · exact absurd hb (by simp)

/-- Witness for C8 at a 2×2 standard capture and a 3×1 handle capture. -/
theorem c8_witness :
    ((⟨2, 2, [128, 128, 128, 128]⟩ : Bitmap).width : Int) =
      rect2x2.right - rect2x2.left
    ∧ ((⟨3, 1, [200, 200, 200]⟩ : Bitmap).width : Int) =
      handleBright3x1.rect.right - handleBright3x1.rect.left := by
  constructor
  · exact ((c8_capture_dimensions screenGray handleBright3x1 rect2x2 (by decide)
      (by decide) (by decide) (by decide)).1 ⟨2, 2, [128, 128, 128, 128]⟩
      (by decide)).1
  · exact ((c8_capture_dimensions screenGray handleBright3x1 rect2x2 (by decide)
      (by decide) (by decide) (by decide)).2 ⟨3, 1, [200, 200, 200]⟩
      (by decide)).1

/-- C7 counterexample: at a concrete environment with a valid rect, the
unrecognized method string yields exactly the same outcome (`None`) that a
failed Standard capture yields, so the caller error is not distinguishable
from a capture failure in the returned value — refuting the claim as stated. -/
theorem c7_counterexample :
    (capture_window cwStdFails "frobnicate" true).1 = none
    ∧ (capture_window cwStdFails "standard" true).1 = none := by decide

/-- C7 (amended): a method string outside
`{standard, handle, auto, background, smart}` makes `capture_window` log an
error and return `None` with no strategy invoked — the same return value a
failed capture yields; it is distinguishable only in the log, not in the
outcome. -/
theorem c7_unknown_method_yields_none (e : CwEnv) (hasPM : Bool)
    (method : String) (r : Rect) (hr : e.rect0 = some r)
    (hsz : ¬(r.right - r.left ≤ 0 ∨ r.bottom - r.top ≤ 0))
    (h1 : method ≠ "standard") (h2 : method ≠ "handle") (h3 : method ≠ "auto")
    (h4 : method ≠ "background") (h5 : method ≠ "smart") :
    capture_window e method hasPM = (none, []) := by
  simp only [capture_window, hr]
  rw [if_neg hsz, if_neg h1, if_neg h2, if_neg h3, if_neg h4, if_neg h5]

/-- Witness for the amended C7 at a concrete unknown method string. -/
theorem c7_witness :
    capture_window cwBgSuccess "screenshot" true = (none, []) :=
  c7_unknown_method_yields_none cwBgSuccess true "screenshot" rect2x2 rfl
    (by decide) (by decide) (by decide) (by decide) (by decide) (by decide)

/-- C6 counterexample: at a concrete environment whose background capture
succeeds, an `auto` request performs exactly one pure no-activation Background
capture as its first (and only) attempt and coincides with `smart` — refuting
the claim that Auto skips background-first probing and always attempts
activation-based capture. -/
theorem c6_counterexample :
    (capture_window cwBgSuccess "auto" true).2 = [Event.bgCap]
    ∧ (capture_window cwBgSuccess "auto" true).1 =
        some ⟨2, 2, [128, 128, 128, 128]⟩
    ∧ capture_window cwBgSuccess "auto" true =
        capture_window cwBgSuccess "smart" true := by decide

/-- C6 (amended): for CaptureMethod `auto`, the Orchestrator delegates to the
same background-first fallback chain as `smart`: an Auto request behaves
identically to Smart, beginning with a no-activation Background capture. -/
theorem c6_auto_equals_smart (e : CwEnv) (hasPM : Bool) :
    capture_window e "auto" hasPM = capture_window e "smart" hasPM := by
  rcases e with ⟨rect0, s0, h0, b0, sm⟩
  cases rect0 with
  | none => rfl
  | some r =>
    unfold capture_window capture_window_auto
    split
    · rfl
    · rfl

/-- C3 counterexample: with the calling thread and the window's owning thread
distinct and `SetForegroundWindow` raising after the input queues were
attached, `force_activate_window` returns `False` with the thread-input
queues still attached — refuting the claim that every exit path detaches. -/
theorem c3_counterexample :
    force_activate_window faRaiseAfterAttach = (false, true) := by decide

/-- C3 (amended): `force_activate_window` detaches the thread-input queues on
the normal return path (whenever it returns `True` the attachment state is
cleared), and the attachment can survive only an exceptional exit: if the
queues are still attached at return, the threads were distinct and the
function returned `False` because an OS call raised after the attach. -/
theorem c3_force_activate_detach (e : FAEnv) :
    ((force_activate_window e).1 = true → (force_activate_window e).2 = false)
    ∧ ((force_activate_window e).2 = true →
        e.sameThread = false ∧ (force_activate_window e).1 = false) := by
  rcases e with ⟨st, ic, g1, g2, a1, w1, s1, p1, f1, d1⟩
  cases st <;> cases ic <;> cases g1 <;> cases g2 <;> cases a1 <;> cases w1 <;>
    cases s1 <;> cases p1 <;> cases f1 <;> cases d1 <;> decide

/-- Witness for the amended C3 at the all-calls-succeed environment. -/
theorem c3_witness : (force_activate_window faAllOk).2 = false :=
  (c3_force_activate_detach faAllOk).1 (by decide)

/-- C2 counterexample: at a concrete environment in which the first two tiers
fail and the re-capture after forced activation grabs a dim screen (mean 1,
classified black), the Smart chain returns that black bitmap as success —
refuting the claim that the final re-capture is validated. -/
theorem c2_counterexample :
    (capture_window_with_fallback envFinalDim true true).1 = some ⟨2, 1, [1, 1]⟩
    ∧ is_black_image ⟨2, 1, [1, 1]⟩ 10 = true := by decide

/-- C2 (amended): the bitmap produced by the final re-capture after forced
activation is returned without any black-frame validation: under tier-3
conditions the chain returns exactly the re-capture result, black or not, and
returns `None` only when that re-capture itself produced no bitmap. -/
theorem c2_final_recapture_not_validated (e : SmartEnv) (r : Rect)
    (h1 : capture_window_background e.bg = none) (h2 : e.rect = some r)
    (h3 : e.activateOk = true)
    (h4 : blackOrNone (capture_window_standard e.screen1 r) = true)
    (h5 : e.forceOk = true) :
    (capture_window_with_fallback e true true).1 =
      capture_window_standard e.screen2 r := by
  simp [capture_window_with_fallback, h1, h2, h3, h4, h5]

/-- Witness for the amended C2 at the concrete dim-re-capture environment. -/
theorem c2_witness :
    (capture_window_with_fallback envFinalDim true true).1 =
      capture_window_standard envFinalDim.screen2 rect2x1 :=
  c2_final_recapture_not_validated envFinalDim rect2x1 (by decide) rfl rfl
    (by decide) rfl

/-- C1 counterexample: at a concrete environment in which the Background tier
fails, the capture after basic activation is black, forced activation succeeds
and the final re-capture is also black — every tier fails — the Smart chain
does not return `None`: it returns the black re-capture — refuting the claim
that exhausting every tier yields a failure. -/
theorem c1_counterexample :
    capture_window_background envAllTiersBlack.bg = none
    ∧ blackOrNone (capture_window_standard envAllTiersBlack.screen1 rect2x2)
        = true
    ∧ blackOrNone (capture_window_standard envAllTiersBlack.screen2 rect2x2)
        = true
    ∧ (capture_window_with_fallback envAllTiersBlack true true).1 ≠ none := by
  decide

/-- C1 (amended): the Smart chain escalates in this order — Background first;
on its success the bitmap is returned with no activation; otherwise, if the
rect cannot be resolved the chain fails; otherwise basic activation is
attempted, and if it fails the chain fails without forced activation; if it
succeeds, a Standard capture runs; exactly when that result is absent or
black, forced activation is attempted; if forced activation succeeds one
final re-capture runs and its result is returned unvalidated (possibly
black); if forced activation fails the tier-2 result is returned as is. -/
theorem c1_escalation_chain (e : SmartEnv) :
    (∀ b, capture_window_background e.bg = some b →
      capture_window_with_fallback e true true = (some b, [Event.bgCap]))
    ∧ (capture_window_background e.bg = none →
        (e.rect = none →
          capture_window_with_fallback e true true = (none, [Event.bgCap]))
        ∧ (∀ r, e.rect = some r →
            (e.activateOk = false →
              capture_window_with_fallback e true true =
                (none, [Event.bgCap, Event.basicAct]))
            ∧ (e.activateOk = true →
                (blackOrNone (capture_window_standard e.screen1 r) = false →
                  capture_window_with_fallback e true true =
                    (capture_window_standard e.screen1 r,
                      [Event.bgCap, Event.basicAct, Event.stdCap]))
                ∧ (blackOrNone (capture_window_standard e.screen1 r) = true →
                    (e.forceOk = true →
                      capture_window_with_fallback e true true =
                        (capture_window_standard e.screen2 r,
                          [Event.bgCap, Event.basicAct, Event.stdCap,
                            Event.forcedAct, Event.stdCap]))
                    ∧ (e.forceOk = false →
                        capture_window_with_fallback e true true =
                          (capture_window_standard e.screen1 r,
                            [Event.bgCap, Event.basicAct, Event.stdCap,
                              Event.forcedAct])))))) := by
  refine ⟨fun b hb => ?_,
    fun hn => ⟨fun hr => ?_,
      fun r hr => ⟨fun ha => ?_,
        fun ha => ⟨fun hb1 => ?_,
          fun hb1 => ⟨fun hf => ?_, fun hf => ?_⟩⟩⟩⟩⟩ <;>
    simp [capture_window_with_fallback, *]

/-- Witness for the amended C1: the all-tiers-black environment follows the
full escalation and returns the unvalidated final re-capture. -/
theorem c1_witness :
    capture_window_with_fallback envAllTiersBlack true true =
      (capture_window_standard envAllTiersBlack.screen2 rect2x2,
        [Event.bgCap, Event.basicAct, Event.stdCap, Event.forcedAct,
          Event.stdCap]) :=
  (((((c1_escalation_chain envAllTiersBlack).2 (by decide)).2 rect2x2
      rfl).2 rfl).2 (by decide)).1 rfl

end HookExe
